import Mathlib

/-!
Verification of the asynchronous job execution and status-tracking core of
`api_server.py` (FastAPI server for the CrewAI interview-evaluation workflow).

The embedding models:
* the JSON payloads accepted at the HTTP boundary (`Json`),
* the per-job record stored in the module-level `executions` dict (`JobRecord`),
* the dict itself as an association list with Python-dict semantics
  (`Registry`, `dictSet`, `rlookup`, `updRec`),
* the `/kickoff` handler (`kickoff`, `kickoffEndpoint` with pydantic
  validation of `KickoffRequest`),
* the background worker `run_crew_async` as the ordered list of single
  assignments it performs on the shared dict (`workerWrites`); the outcome of
  the single call into the external CrewAI workflow is abstracted as
  `CrewOutcome`,
* the `/status/{kickoff_id}` handler (`get_status`).

Because each Python assignment in the worker is an individually visible write
to the shared dict (the worker runs in its own thread and performs the
terminal transition as several separate statements), the worker is modelled as
a write sequence and observable points are the registry states between writes
(`workerTrace`, `jobTrace`).
-/

set_option autoImplicit false

namespace ApiServer

/-- JSON values, modelling the opaque request payloads. -/
inductive Json where
  | null : Json
  | bool : Bool → Json
  | num : Int → Json
  | str : String → Json
  | arr : List Json → Json
  | obj : List (String × Json) → Json

/-- Whether a JSON value is an object (a Python `dict` after parsing). -/
def Json.isObj : Json → Bool
  | .obj _ => true
  | _ => false

/-- Field lookup in a JSON object; `none` for non-objects or missing keys. -/
def Json.getField : Json → String → Option Json
  | .obj kvs, k => lookupField kvs k
  | _, _ => none
where
  lookupField : List (String × Json) → String → Option Json
    | [], _ => none
    | (k', v) :: rest, k => if k' = k then some v else lookupField rest k

/-- The four values the `state` field of an execution record takes. -/
inductive JobState where
  | PENDING : JobState
  | RUNNING : JobState
  | SUCCESS : JobState
  | FAILED : JobState
deriving DecidableEq, Repr

/-- The string stored in the dict for each state (the Python code stores the
state as a string literal). -/
def JobState.str : JobState → String
  | .PENDING => "PENDING"
  | .RUNNING => "RUNNING"
  | .SUCCESS => "SUCCESS"
  | .FAILED => "FAILED"

/-- A terminal state: SUCCESS or FAILED. -/
def JobState.isTerminal : JobState → Bool
  | .SUCCESS => true
  | .FAILED => true
  | _ => false

/-- The `last_executed_task` dict stored on success:
`{"output": ..., "task_name": "final_output_assembly"}`. -/
structure LastTask where
  output : String
  task_name : String
deriving DecidableEq, Repr

/-- One entry of the module-level `executions` dict: the fields written by
`kickoff` and mutated by `run_crew_async`. -/
structure JobRecord where
  state : JobState
  started_at : String
  completed_at : Option String
  last_executed_task : Option LastTask
  error : Option String
  inputs : Json

/-- The record `kickoff` inserts for a fresh execution. -/
def initialRecord (startTs : String) (inputs : Json) : JobRecord :=
  { state := .PENDING
  , started_at := startTs
  , completed_at := none
  , last_executed_task := none
  , error := none
  , inputs := inputs }

/-- The `executions` dict, as an association list keyed by `kickoff_id`. -/
abbrev Registry := List (String × JobRecord)

/-- Dict lookup (`executions[kickoff_id]`, or the `in` test). -/
def rlookup : Registry → String → Option JobRecord
  | [], _ => none
  | (k, r) :: rest, id => if k = id then some r else rlookup rest id

/-- Dict assignment `executions[kickoff_id] = record`: overwrite the entry if
the key is present, append it otherwise. -/
def dictSet : Registry → String → JobRecord → Registry
  | [], id, r => [(id, r)]
  | (k, r0) :: rest, id, r =>
      if k = id then (k, r) :: rest else (k, r0) :: dictSet rest id r

/-- In-place mutation of one record's fields
(`executions[kickoff_id]["field"] = v`): apply `f` to the entry with the given
key, leaving all other entries untouched. -/
def updRec : Registry → String → (JobRecord → JobRecord) → Registry
  | [], _, _ => []
  | (k, r0) :: rest, id, f =>
      if k = id then (k, f r0) :: rest else (k, r0) :: updRec rest id f

/-- Set the `state` field of a record. -/
def setState (s : JobState) (r : JobRecord) : JobRecord := { r with state := s }

/-- Set the `completed_at` field of a record. -/
def setCompleted (ts : Option String) (r : JobRecord) : JobRecord :=
  { r with completed_at := ts }

/-- Set the `last_executed_task` field of a record. -/
def setLastTask (t : Option LastTask) (r : JobRecord) : JobRecord :=
  { r with last_executed_task := t }

/-- Set the `error` field of a record. -/
def setError (e : Option String) (r : JobRecord) : JobRecord :=
  { r with error := e }

/-- Outcome of the single call into the external workflow
(`crew_instance.crew().kickoff(inputs=inputs)`), treated as an opaque
capability: it either returns a result object (of which the code only
inspects whether it has a `raw` attribute, `str(result.raw)` and
`str(result)`), or raises an exception with description `str(e)`. -/
inductive CrewOutcome where
  | success : (hasRaw : Bool) → (strRaw : String) → (strSelf : String) → CrewOutcome
  | failure : (errMsg : String) → CrewOutcome

/-- The terminal state the worker writes for a given workflow outcome. -/
def CrewOutcome.terminal : CrewOutcome → JobState
  | .success _ _ _ => .SUCCESS
  | .failure _ => .FAILED

/-- The `output` string stored on success:
`str(result.raw) if hasattr(result, 'raw') else str(result)`. -/
def CrewOutcome.outputStr : CrewOutcome → String
  | .success hasRaw strRaw strSelf => if hasRaw then strRaw else strSelf
  | .failure e => e

/-- The ordered single assignments `run_crew_async` performs on the shared
dict for its job, one list element per Python statement:
`state = "RUNNING"`; then on normal return of the workflow call
`state = "SUCCESS"`, `completed_at = ...`, `last_executed_task = {...}`;
on an exception `state = "FAILED"`, `error = str(e)`, `completed_at = ...`. -/
def workerWrites (kickoff_id : String) (o : CrewOutcome) (doneTs : String) :
    List (Registry → Registry) :=
  match o with
  | .success hasRaw strRaw strSelf =>
      [ fun g => updRec g kickoff_id (setState .RUNNING)
      , fun g => updRec g kickoff_id (setState .SUCCESS)
      , fun g => updRec g kickoff_id (setCompleted (some doneTs))
      , fun g => updRec g kickoff_id (setLastTask (some
          { output := if hasRaw then strRaw else strSelf
          , task_name := "final_output_assembly" })) ]
  | .failure msg =>
      [ fun g => updRec g kickoff_id (setState .RUNNING)
      , fun g => updRec g kickoff_id (setState .FAILED)
      , fun g => updRec g kickoff_id (setError (some msg))
      , fun g => updRec g kickoff_id (setCompleted (some doneTs)) ]

/-- Apply a sequence of dict writes in order. -/
def applyWrites (reg : Registry) (ws : List (Registry → Registry)) : Registry :=
  ws.foldl (fun g f => f g) reg

/-- All registry states observable while the worker runs: the state before any
worker write, and the state after each single write. -/
def workerTrace (reg : Registry) (kickoff_id : String) (o : CrewOutcome)
    (doneTs : String) : List Registry :=
  (workerWrites kickoff_id o doneTs).scanl (fun g f => f g) reg

/-- Response body of `/kickoff`. -/
structure KickoffResponse where
  kickoff_id : String
  status : String
  message : String
deriving DecidableEq, Repr

/-- The `/kickoff` handler body after validation: generate an id (passed in,
modelling `uuid.uuid4()`), insert the PENDING record, and build the response
returned before the worker thread has performed any write. -/
def kickoff (reg : Registry) (freshId : String) (startTs : String)
    (inputs : Json) : Registry × KickoffResponse :=
  ( dictSet reg freshId (initialRecord startTs inputs)
  , { kickoff_id := freshId
    , status := "PENDING"
    , message := "Crew execution started" } )

/-- All registry states observable from submission through worker completion:
the state right after `kickoff` inserts the record (the worker thread is
started only after this insert), then each worker write. -/
def jobTrace (reg : Registry) (freshId startTs : String) (inputs : Json)
    (o : CrewOutcome) (doneTs : String) : List Registry :=
  workerTrace (kickoff reg freshId startTs inputs).1 freshId o doneTs

/-- The registry after the worker for a job has finished all its writes. -/
def finalRegistry (reg : Registry) (freshId startTs : String) (inputs : Json)
    (o : CrewOutcome) (doneTs : String) : Registry :=
  applyWrites (kickoff reg freshId startTs inputs).1
    (workerWrites freshId o doneTs)

/-- FastAPI `HTTPException` with a status code and detail message. -/
structure HTTPError where
  status_code : Nat
  detail : String
deriving DecidableEq, Repr

/-- Response body of `/status/{kickoff_id}`. -/
structure StatusResponse where
  state : String
  last_executed_task : Option LastTask
  started_at : Option String
  completed_at : Option String
  error : Option String
deriving DecidableEq, Repr

/-- The `/status/{kickoff_id}` handler: 404 when the id is not a key of
`executions`, otherwise a snapshot of the record's fields. -/
def get_status (reg : Registry) (kickoff_id : String) :
    Except HTTPError StatusResponse :=
  match rlookup reg kickoff_id with
  | none => .error { status_code := 404, detail := "Execution not found" }
  | some ex => .ok
      { state := ex.state.str
      , last_executed_task := ex.last_executed_task
      , started_at := some ex.started_at
      , completed_at := ex.completed_at
      , error := ex.error }

/-- The `/status` handler including its (absent) effect on the dict: the
handler body only reads `executions`, so the registry component is returned
unchanged. -/
def statusEndpoint (reg : Registry) (kickoff_id : String) :
    Registry × Except HTTPError StatusResponse :=
  (reg, get_status reg kickoff_id)

/-- Validated request body of `/kickoff` (`class KickoffRequest(BaseModel):
inputs: Dict[str, Any]`). -/
structure KickoffRequest where
  inputs : Json

/-- Pydantic validation of the `/kickoff` body: succeeds exactly when the
body is a JSON object whose `inputs` field is present and is itself a JSON
object (any contents, including empty); extra fields are ignored. -/
def parseKickoffRequest (body : Json) : Option KickoffRequest :=
  match body.getField "inputs" with
  | some j => if j.isObj then some { inputs := j } else none
  | none => none

/-- The full `/kickoff` endpoint: validation at the HTTP boundary, then the
handler. A validation failure is a 422 response produced before any record is
created; no identifier is issued. -/
def kickoffEndpoint (reg : Registry) (body : Json) (freshId startTs : String) :
    Registry × Except HTTPError KickoffResponse :=
  match parseKickoffRequest body with
  | none => (reg, .error { status_code := 422, detail := "validation error" })
  | some req =>
      let p := kickoff reg freshId startTs req.inputs
      (p.1, .ok p.2)

/-- Submit a batch of jobs (each with its generated id and payload) one after
another, collecting the returned identifiers. -/
def submitAll (reg : Registry) (startTs : String) :
    List (String × Json) → Registry × List String
  | [] => (reg, [])
  | (id, inputs) :: rest =>
      let p := kickoff reg id startTs inputs
      let q := submitAll p.1 startTs rest
      (q.1, p.2.kickoff_id :: q.2)

/-- The states the job's record passes through along a list of registry
snapshots. -/
def statesAlong (trace : List Registry) (kickoff_id : String) : List JobState :=
  trace.filterMap (fun g => (rlookup g kickoff_id).map JobRecord.state)

/-- The observable registry states at which no multi-statement transition of
the worker is in progress: after the record is inserted, after the single
`state = "RUNNING"` assignment, and after the worker has finished all writes
of the terminal transition. -/
def settledTrace (reg : Registry) (freshId startTs : String) (inputs : Json)
    (o : CrewOutcome) (doneTs : String) : List Registry :=
  (jobTrace reg freshId startTs inputs o doneTs).take 2 ++
    [finalRegistry reg freshId startTs inputs o doneTs]

/-! Basic lemmas about the dict operations. -/

@[simp]
theorem rlookup_dictSet_self (reg : Registry) (id : String) (r : JobRecord) :
    rlookup (dictSet reg id r) id = some r := by
  induction reg with
  | nil => simp [dictSet, rlookup]
  | cons p rest ih =>
      obtain ⟨k, r0⟩ := p
      by_cases h : k = id <;> simp [dictSet, rlookup, h, ih]

@[simp]
theorem rlookup_dictSet_other (reg : Registry) (id id' : String) (r : JobRecord)
    (h : id' ≠ id) : rlookup (dictSet reg id r) id' = rlookup reg id' := by
  induction reg with
  | nil => simp [dictSet, rlookup, Ne.symm h]
  | cons p rest ih =>
      obtain ⟨k, r0⟩ := p
      by_cases hk : k = id
      · subst hk
        simp [dictSet, rlookup, Ne.symm h]
      · simp [dictSet, rlookup, hk, ih]

@[simp]
theorem rlookup_updRec (reg : Registry) (id : String) (f : JobRecord → JobRecord) :
    rlookup (updRec reg id f) id = (rlookup reg id).map f := by
  induction reg with
  | nil => simp [updRec, rlookup]
  | cons p rest ih =>
      obtain ⟨k, r0⟩ := p
      by_cases h : k = id <;> simp [updRec, rlookup, h, ih]

@[simp]
theorem rlookup_updRec_other (reg : Registry) (id id' : String)
    (f : JobRecord → JobRecord) (h : id' ≠ id) :
    rlookup (updRec reg id f) id' = rlookup reg id' := by
  induction reg with
  | nil => simp [updRec, rlookup]
  | cons p rest ih =>
      obtain ⟨k, r0⟩ := p
      by_cases hk : k = id
      · subst hk
        simp [updRec, rlookup, Ne.symm h]
      · simp [updRec, rlookup, hk, ih]

/-- The full per-job trace of states at every single-write granularity:
PENDING once, RUNNING once, then the terminal state written by the first
statement of the terminal transition and unchanged by the remaining field
writes. -/
theorem statesAlong_jobTrace (reg : Registry) (id ts : String) (inputs : Json)
    (o : CrewOutcome) (doneTs : String) :
    statesAlong (jobTrace reg id ts inputs o doneTs) id =
      [.PENDING, .RUNNING, o.terminal, o.terminal, o.terminal] := by
  cases o <;>
    simp [statesAlong, jobTrace, workerTrace, workerWrites, kickoff,
      List.scanl, initialRecord, setState, setCompleted, setLastTask, setError,
      CrewOutcome.terminal]

/-- C1: `kickoff` inserts a PENDING record (with `started_at` set and
`completed_at`, `last_executed_task`, `error` absent) before the worker is
scheduled and returns the fresh identifier with status "PENDING"; a status
query for that identifier at any observable point after submission never
returns 404, and before the worker's terminal transition it reports state
PENDING or RUNNING. -/
theorem kickoff_pending_then_poll (reg : Registry) (id ts : String)
    (inputs : Json) (o : CrewOutcome) (doneTs : String) :
    (kickoff reg id ts inputs).2.kickoff_id = id ∧
    (kickoff reg id ts inputs).2.status = "PENDING" ∧
    (∃ r, rlookup (kickoff reg id ts inputs).1 id = some r ∧
      r.state = .PENDING ∧ r.started_at = ts ∧ r.completed_at = none ∧
      r.last_executed_task = none ∧ r.error = none) ∧
    (∀ g ∈ jobTrace reg id ts inputs o doneTs, (get_status g id).isOk = true) ∧
    (∀ g ∈ (jobTrace reg id ts inputs o doneTs).take 2,
      ∃ resp, get_status g id = Except.ok resp ∧
        (resp.state = "PENDING" ∨ resp.state = "RUNNING")) := by
  refine ⟨rfl, rfl, ⟨initialRecord ts inputs, by simp [kickoff], rfl, rfl, rfl, rfl, rfl⟩, ?_, ?_⟩
  · intro g hg
    cases o <;>
      simp only [jobTrace, workerTrace, workerWrites, List.scanl, kickoff,
        List.mem_cons, List.not_mem_nil, or_false] at hg <;>
      rcases hg with rfl | rfl | rfl | rfl | rfl <;>
      simp [get_status, initialRecord, setState, setCompleted, setLastTask,
        setError, Except.isOk, Except.toBool]
  · intro g hg
    cases o <;>
      simp only [jobTrace, workerTrace, workerWrites, List.scanl, kickoff,
        List.take, List.mem_cons, List.not_mem_nil, or_false] at hg <;>
      rcases hg with rfl | rfl <;>
      simp [get_status, initialRecord, setState, JobState.str]

/-- C1 witness: on a concrete submission, polling the registry state right
after `kickoff` yields a successful response in state PENDING or RUNNING. -/
theorem kickoff_pending_then_poll_witness :
    ∃ resp, get_status (kickoff [] "a" "t0" (Json.obj [])).1 "a" = Except.ok resp ∧
      (resp.state = "PENDING" ∨ resp.state = "RUNNING") :=
  (kickoff_pending_then_poll [] "a" "t0" (Json.obj [])
      (.success true "o" "s") "t1").2.2.2.2
    (kickoff [] "a" "t0" (Json.obj [])).1
    (by simp [jobTrace, workerTrace, workerWrites, List.scanl, List.take])

/-- C2: over the whole observable trace of a job, the sequence of states,
with consecutive repeats collapsed, is exactly PENDING, RUNNING, then the
single terminal state of the outcome — no repeats, no reversals, and no write
after the terminal state changes it. -/
theorem run_crew_async_states_monotone (reg : Registry) (id ts : String)
    (inputs : Json) (o : CrewOutcome) (doneTs : String) :
    List.destutter (fun a b => a ≠ b)
        (statesAlong (jobTrace reg id ts inputs o doneTs) id) =
      [JobState.PENDING, JobState.RUNNING, o.terminal] := by
  rw [statesAlong_jobTrace]
  cases o <;> simp only [CrewOutcome.terminal] <;> decide

/-- C4: when the workflow call raises, the worker terminates normally having
set the job's state to FAILED with `error = str(e)`; the submitter's
synchronous response is still "PENDING", and the failure surfaces only via a
later status poll, which returns state "FAILED" with the error message. -/
theorem run_crew_async_failure_contained (reg : Registry) (id ts : String)
    (inputs : Json) (msg doneTs : String) :
    (kickoff reg id ts inputs).2.status = "PENDING" ∧
    ∃ r, rlookup (finalRegistry reg id ts inputs (.failure msg) doneTs) id = some r ∧
      r.state = .FAILED ∧ r.error = some msg ∧
      get_status (finalRegistry reg id ts inputs (.failure msg) doneTs) id =
        Except.ok { state := "FAILED", last_executed_task := none,
                    started_at := some ts, completed_at := some doneTs,
                    error := some msg } := by
  refine ⟨rfl, { state := .FAILED, started_at := ts,
                 completed_at := some doneTs, last_executed_task := none,
                 error := some msg, inputs := inputs }, ?_, rfl, rfl, ?_⟩
  · simp [finalRegistry, applyWrites, workerWrites, kickoff, initialRecord,
      setState, setError, setCompleted]
  · simp [get_status, finalRegistry, applyWrites, workerWrites, kickoff,
      initialRecord, setState, setError, setCompleted, JobState.str]

/-- C8: when the workflow call returns normally, the job ends in SUCCESS and
the stored `last_executed_task` holds `str(result.raw)` when the result has a
`raw` attribute and `str(result)` otherwise, with task_name
"final_output_assembly". -/
theorem run_crew_async_success_result (reg : Registry) (id ts : String)
    (inputs : Json) (hasRaw : Bool) (strRaw strSelf doneTs : String) :
    ∃ r, rlookup
        (finalRegistry reg id ts inputs (.success hasRaw strRaw strSelf) doneTs)
        id = some r ∧
      r.state = .SUCCESS ∧
      r.last_executed_task = some
        { output := if hasRaw then strRaw else strSelf
        , task_name := "final_output_assembly" } := by
  refine ⟨{ state := .SUCCESS, started_at := ts,
            completed_at := some doneTs,
            last_executed_task := some
              { output := if hasRaw then strRaw else strSelf
              , task_name := "final_output_assembly" },
            error := none, inputs := inputs }, ?_, rfl, rfl⟩
  simp [finalRegistry, applyWrites, workerWrites, kickoff, initialRecord,
    setState, setLastTask, setCompleted]

/-- C3 counterexample: the worker performs the terminal transition as several
separate dict writes, so after the `state = "SUCCESS"` assignment and before
the `last_executed_task` assignment there is an observable registry state in
which the job is in state SUCCESS with `last_executed_task` (and even
`completed_at`) still absent, refuting the claimed iff at every observable
point. -/
theorem result_iff_success_counterexample :
    ∃ g ∈ jobTrace [] "a" "t0" (Json.obj [])
        (CrewOutcome.success true "out" "self") "t1",
      ∃ r, rlookup g "a" = some r ∧ r.state = .SUCCESS ∧
        r.last_executed_task = none ∧ r.completed_at = none := by
  refine ⟨updRec (updRec (dictSet [] "a" (initialRecord "t0" (Json.obj [])))
      "a" (setState .RUNNING)) "a" (setState .SUCCESS), ?_, ?_⟩
  · simp [jobTrace, workerTrace, workerWrites, kickoff, List.scanl]
  · exact ⟨{ state := .SUCCESS, started_at := "t0", completed_at := none,
             last_executed_task := none, error := none, inputs := Json.obj [] },
           by simp [initialRecord, setState], rfl, rfl, rfl⟩

/-- C3 amended: at every settled observable point — after record creation,
after the single RUNNING write, and after the worker has finished the whole
terminal write sequence (but not in between the individual writes of that
sequence) — the record satisfies: `last_executed_task` present iff SUCCESS,
`error` present iff FAILED, never both. -/
theorem result_error_iff_settled (reg : Registry) (id ts : String)
    (inputs : Json) (o : CrewOutcome) (doneTs : String) :
    ∀ g ∈ settledTrace reg id ts inputs o doneTs, ∀ r, rlookup g id = some r →
      (r.last_executed_task ≠ none ↔ r.state = .SUCCESS) ∧
      (r.error ≠ none ↔ r.state = .FAILED) ∧
      ¬(r.last_executed_task ≠ none ∧ r.error ≠ none) := by
  intro g hg r hr
  cases o <;>
    simp only [settledTrace, jobTrace, workerTrace, workerWrites, finalRegistry,
      applyWrites, kickoff, List.scanl, List.take, List.foldl, List.mem_cons,
      List.mem_append, List.not_mem_nil, or_false, List.mem_singleton] at hg <;>
    rcases hg with (rfl | rfl) | rfl <;>
    simp only [rlookup_updRec, rlookup_dictSet_self, Option.map_some',
      Option.some.injEq] at hr <;>
    subst hr <;>
    simp [initialRecord, setState, setCompleted, setLastTask, setError]

/-- C3 amended witness: at the settled point after a failed worker run, the
record has `error` present, `last_executed_task` absent, matching FAILED. -/
theorem result_error_iff_settled_witness :
    (JobRecord.last_executed_task
        { state := .FAILED, started_at := "t0", completed_at := some "t1",
          last_executed_task := none, error := some "boom",
          inputs := Json.obj [] } ≠ none ↔
      JobRecord.state
        { state := .FAILED, started_at := "t0", completed_at := some "t1",
          last_executed_task := none, error := some "boom",
          inputs := Json.obj [] } = .SUCCESS) ∧
    (JobRecord.error
        { state := .FAILED, started_at := "t0", completed_at := some "t1",
          last_executed_task := none, error := some "boom",
          inputs := Json.obj [] } ≠ none ↔
      JobRecord.state
        { state := .FAILED, started_at := "t0", completed_at := some "t1",
          last_executed_task := none, error := some "boom",
          inputs := Json.obj [] } = .FAILED) ∧
    ¬(JobRecord.last_executed_task
        { state := .FAILED, started_at := "t0", completed_at := some "t1",
          last_executed_task := none, error := some "boom",
          inputs := Json.obj [] } ≠ none ∧
      JobRecord.error
        { state := .FAILED, started_at := "t0", completed_at := some "t1",
          last_executed_task := none, error := some "boom",
          inputs := Json.obj [] } ≠ none) :=
  result_error_iff_settled [] "a" "t0" (Json.obj []) (.failure "boom") "t1"
    (finalRegistry [] "a" "t0" (Json.obj []) (.failure "boom") "t1")
    (by simp [settledTrace])
    { state := .FAILED, started_at := "t0", completed_at := some "t1",
      last_executed_task := none, error := some "boom", inputs := Json.obj [] }
    (by simp [finalRegistry, applyWrites, workerWrites, kickoff, initialRecord,
      setState, setError, setCompleted])

/-- C5 counterexample: in the failure branch the worker writes
`state = "FAILED"` and `error` before `completed_at`, so there is an
observable registry state whose record is terminal (FAILED) with
`completed_at` still absent, refuting "completed_at is present iff the state
is terminal" at every observable point. -/
theorem completed_iff_terminal_counterexample :
    ∃ g ∈ jobTrace [] "b" "t0" (Json.obj [])
        (CrewOutcome.failure "boom") "t1",
      ∃ r, rlookup g "b" = some r ∧ r.state = .FAILED ∧
        r.completed_at = none := by
  refine ⟨updRec (updRec (dictSet [] "b" (initialRecord "t0" (Json.obj [])))
      "b" (setState .RUNNING)) "b" (setState .FAILED), ?_, ?_⟩
  · simp [jobTrace, workerTrace, workerWrites, kickoff, List.scanl]
  · exact ⟨{ state := .FAILED, started_at := "t0", completed_at := none,
             last_executed_task := none, error := none, inputs := Json.obj [] },
           by simp [initialRecord, setState], rfl, rfl⟩

/-- C5 amended: at every settled observable point (not inside the worker's
non-atomic terminal write sequence), `completed_at` is present iff the state
is terminal, absent while PENDING or RUNNING, and when terminal it holds the
worker's single completion timestamp. -/
theorem completed_iff_terminal_settled (reg : Registry) (id ts : String)
    (inputs : Json) (o : CrewOutcome) (doneTs : String) :
    ∀ g ∈ settledTrace reg id ts inputs o doneTs, ∀ r, rlookup g id = some r →
      (r.completed_at ≠ none ↔ r.state.isTerminal = true) ∧
      (r.state.isTerminal = true → r.completed_at = some doneTs) := by
  intro g hg r hr
  cases o <;>
    simp only [settledTrace, jobTrace, workerTrace, workerWrites, finalRegistry,
      applyWrites, kickoff, List.scanl, List.take, List.foldl, List.mem_cons,
      List.mem_append, List.not_mem_nil, or_false, List.mem_singleton] at hg <;>
    rcases hg with (rfl | rfl) | rfl <;>
    simp only [rlookup_updRec, rlookup_dictSet_self, Option.map_some',
      Option.some.injEq] at hr <;>
    subst hr <;>
    simp [initialRecord, setState, setCompleted, setLastTask, setError,
      JobState.isTerminal]

/-- C5 amended witness: after a successful worker run, the record is terminal
with `completed_at` holding the completion timestamp. -/
theorem completed_iff_terminal_settled_witness :
    (JobRecord.completed_at
        { state := .SUCCESS, started_at := "t0", completed_at := some "t1",
          last_executed_task := some
            { output := "out", task_name := "final_output_assembly" },
          error := none, inputs := Json.obj [] } ≠ none ↔
      JobState.isTerminal
        (JobRecord.state
          { state := .SUCCESS, started_at := "t0", completed_at := some "t1",
            last_executed_task := some
              { output := "out", task_name := "final_output_assembly" },
            error := none, inputs := Json.obj [] }) = true) ∧
    (JobState.isTerminal
        (JobRecord.state
          { state := .SUCCESS, started_at := "t0", completed_at := some "t1",
            last_executed_task := some
              { output := "out", task_name := "final_output_assembly" },
            error := none, inputs := Json.obj [] }) = true →
      JobRecord.completed_at
        { state := .SUCCESS, started_at := "t0", completed_at := some "t1",
          last_executed_task := some
            { output := "out", task_name := "final_output_assembly" },
          error := none, inputs := Json.obj [] } = some "t1") :=
  completed_iff_terminal_settled [] "a" "t0" (Json.obj [])
    (.success true "out" "self") "t1"
    (finalRegistry [] "a" "t0" (Json.obj []) (.success true "out" "self") "t1")
    (by simp [settledTrace])
    { state := .SUCCESS, started_at := "t0", completed_at := some "t1",
      last_executed_task := some
        { output := "out", task_name := "final_output_assembly" },
      error := none, inputs := Json.obj [] }
    (by simp [finalRegistry, applyWrites, workerWrites, kickoff, initialRecord,
      setState, setLastTask, setCompleted])

/-- C6: a status query for an identifier that is not a key of the registry
returns HTTP 404 with detail "Execution not found" and leaves the registry
unchanged. -/
theorem status_unknown_id_404 (reg : Registry) (id : String)
    (h : rlookup reg id = none) :
    statusEndpoint reg id =
      (reg, Except.error { status_code := 404, detail := "Execution not found" }) := by
  simp [statusEndpoint, get_status, h]

/-- C6 witness: querying an identifier on an empty registry yields the 404. -/
theorem status_unknown_id_404_witness :
    statusEndpoint [] "nope" =
      ([], Except.error { status_code := 404, detail := "Execution not found" }) :=
  status_unknown_id_404 [] "nope" rfl

/-- Identifiers returned by a batch of submissions are exactly the generated
ones, in order. -/
theorem submitAll_ids (reg : Registry) (ts : String)
    (jobs : List (String × Json)) :
    (submitAll reg ts jobs).2 = jobs.map Prod.fst := by
  induction jobs generalizing reg with
  | nil => rfl
  | cons p rest ih =>
      obtain ⟨id, inputs⟩ := p
      simp [submitAll, kickoff, ih]

/-- C7: submitting a batch of jobs returns exactly the generated identifiers
(pairwise distinct whenever the id generator never collides, as the spec
assumes of the 128-bit random identifiers), and both record insertion and
every worker write for one job leave every other job's record unchanged. -/
theorem jobs_distinct_and_noninterfering (reg : Registry) (ts : String)
    (jobs : List (String × Json)) (hids : (jobs.map Prod.fst).Nodup)
    (g : Registry) (i j : String) (hne : i ≠ j) (inputs : Json)
    (o : CrewOutcome) (doneTs : String) :
    ((submitAll reg ts jobs).2 = jobs.map Prod.fst ∧
     (submitAll reg ts jobs).2.Nodup) ∧
    rlookup (kickoff g i ts inputs).1 j = rlookup g j ∧
    rlookup (applyWrites g (workerWrites i o doneTs)) j = rlookup g j := by
  refine ⟨⟨submitAll_ids reg ts jobs, by rw [submitAll_ids]; exact hids⟩, ?_, ?_⟩
  · exact rlookup_dictSet_other g i j (initialRecord ts inputs) (Ne.symm hne)
  · cases o <;>
      simp [applyWrites, workerWrites, rlookup_updRec_other, Ne.symm hne]

/-- C7 witness: two concrete submissions yield the two distinct generated
identifiers, and one job's insertion and worker writes do not create or
change the other's record. -/
theorem jobs_distinct_and_noninterfering_witness :
    (((submitAll [] "t" [("a", Json.obj []), ("b", Json.obj [])]).2 =
        [("a", Json.obj []), ("b", Json.obj [])].map Prod.fst ∧
      (submitAll [] "t" [("a", Json.obj []), ("b", Json.obj [])]).2.Nodup) ∧
     rlookup (kickoff [] "a" "t" (Json.obj [])).1 "b" = rlookup [] "b" ∧
     rlookup (applyWrites [] (workerWrites "a" (.failure "x") "t2")) "b" =
       rlookup [] "b") :=
  jobs_distinct_and_noninterfering [] "t" [("a", Json.obj []), ("b", Json.obj [])]
    (by decide) [] "a" "b" (by decide) (Json.obj []) (.failure "x") "t2"

/-- C9: a `/kickoff` body is accepted iff its `inputs` field is present and
is a JSON object (of any contents, including empty); on rejection the
registry is unchanged and only a validation error is returned (no identifier
issued), and on acceptance a PENDING record is created under the generated
identifier. -/
theorem kickoff_validation_boundary (reg : Registry) (body : Json)
    (freshId ts : String) :
    ((kickoffEndpoint reg body freshId ts).2.isOk = true ↔
      ∃ kvs, body.getField "inputs" = some (Json.obj kvs)) ∧
    ((kickoffEndpoint reg body freshId ts).2.isOk = false →
      kickoffEndpoint reg body freshId ts =
        (reg, Except.error { status_code := 422, detail := "validation error" })) ∧
    ((kickoffEndpoint reg body freshId ts).2.isOk = true →
      ∃ r, rlookup (kickoffEndpoint reg body freshId ts).1 freshId = some r ∧
        r.state = .PENDING) := by
  unfold kickoffEndpoint parseKickoffRequest
  rcases hf : body.getField "inputs" with _ | j
  · simp [hf, Except.isOk, Except.toBool]
  · cases j <;>
      simp [hf, Json.isObj, kickoff, initialRecord, Except.isOk, Except.toBool]

/-- C9 witness: the body whose `inputs` is the empty JSON object is accepted. -/
theorem kickoff_validation_boundary_witness :
    (kickoffEndpoint [] (Json.obj [("inputs", Json.obj [])]) "a" "t").2.isOk = true :=
  (kickoff_validation_boundary [] (Json.obj [("inputs", Json.obj [])]) "a" "t").1.mpr
    ⟨[], rfl⟩

end ApiServer
